import Mathlib

/-!
Verification of the AP2-Payment-Processor ledger core.

This file shallowly embeds the Python sources of the repository
(`CryptoLedger.py`, `MandateSigner.py`, `KeyManager.py`, `JSONFactory.py`,
`MandateFactory.py`) as executable Lean definitions and proves the spec's
claims about them.  Mandates and transaction records are JSON-like
dictionaries; Python `dict.get` returning `None` for a missing key is
modelled by mapping a missing key to `Json.null`.
-/

set_option maxRecDepth 40000

namespace AP2

mutual

/-- JSON-like values as passed around by the Python code.  Numbers are
modelled as rationals: the code never does arithmetic on them beyond
`float(...)` conversion and equality, and `ℚ` identifies `10` with `10.0`
exactly as Python numeric equality does.  Arrays and objects use the
mutually defined list types so that every function on `Json` is
structurally recursive (and hence computes by kernel reduction). -/
inductive Json where
  | null
  | bool (b : Bool)
  | num (q : ℚ)
  | str (s : String)
  | arr (elems : JList)
  | obj (fields : FList)

/-- A list of JSON values. -/
inductive JList where
  | nil
  | cons (hd : Json) (tl : JList)

/-- A list of key/value fields of a JSON object, in insertion order
(Python dicts preserve insertion order; keys are unique). -/
inductive FList where
  | fnil
  | fcons (key : String) (val : Json) (tl : FList)

end

mutual

/-- Decidable equality of `Json`, written by hand because `deriving` does
not handle this mutual inductive. -/
def Json.decEq : (a b : Json) → Decidable (a = b)
  | .null, .null => .isTrue rfl
  | .bool a, .bool b =>
    if h : a = b then .isTrue (congrArg Json.bool h)
    else .isFalse (fun hc => h (by injection hc))
  | .num a, .num b =>
    if h : a = b then .isTrue (congrArg Json.num h)
    else .isFalse (fun hc => h (by injection hc))
  | .str a, .str b =>
    if h : a = b then .isTrue (congrArg Json.str h)
    else .isFalse (fun hc => h (by injection hc))
  | .arr xs, .arr ys =>
    match JList.decEq xs ys with
    | .isTrue h => .isTrue (congrArg Json.arr h)
    | .isFalse h => .isFalse (fun hc => h (by injection hc))
  | .obj fs, .obj gs =>
    match FList.decEq fs gs with
    | .isTrue h => .isTrue (congrArg Json.obj h)
    | .isFalse h => .isFalse (fun hc => h (by injection hc))
  | .null, .bool _ => .isFalse (fun h => Json.noConfusion h)
  | .null, .num _ => .isFalse (fun h => Json.noConfusion h)
  | .null, .str _ => .isFalse (fun h => Json.noConfusion h)
  | .null, .arr _ => .isFalse (fun h => Json.noConfusion h)
  | .null, .obj _ => .isFalse (fun h => Json.noConfusion h)
  | .bool _, .null => .isFalse (fun h => Json.noConfusion h)
  | .bool _, .num _ => .isFalse (fun h => Json.noConfusion h)
  | .bool _, .str _ => .isFalse (fun h => Json.noConfusion h)
  | .bool _, .arr _ => .isFalse (fun h => Json.noConfusion h)
  | .bool _, .obj _ => .isFalse (fun h => Json.noConfusion h)
  | .num _, .null => .isFalse (fun h => Json.noConfusion h)
  | .num _, .bool _ => .isFalse (fun h => Json.noConfusion h)
  | .num _, .str _ => .isFalse (fun h => Json.noConfusion h)
  | .num _, .arr _ => .isFalse (fun h => Json.noConfusion h)
  | .num _, .obj _ => .isFalse (fun h => Json.noConfusion h)
  | .str _, .null => .isFalse (fun h => Json.noConfusion h)
  | .str _, .bool _ => .isFalse (fun h => Json.noConfusion h)
  | .str _, .num _ => .isFalse (fun h => Json.noConfusion h)
  | .str _, .arr _ => .isFalse (fun h => Json.noConfusion h)
  | .str _, .obj _ => .isFalse (fun h => Json.noConfusion h)
  | .arr _, .null => .isFalse (fun h => Json.noConfusion h)
  | .arr _, .bool _ => .isFalse (fun h => Json.noConfusion h)
  | .arr _, .num _ => .isFalse (fun h => Json.noConfusion h)
  | .arr _, .str _ => .isFalse (fun h => Json.noConfusion h)
  | .arr _, .obj _ => .isFalse (fun h => Json.noConfusion h)
  | .obj _, .null => .isFalse (fun h => Json.noConfusion h)
  | .obj _, .bool _ => .isFalse (fun h => Json.noConfusion h)
  | .obj _, .num _ => .isFalse (fun h => Json.noConfusion h)
  | .obj _, .str _ => .isFalse (fun h => Json.noConfusion h)
  | .obj _, .arr _ => .isFalse (fun h => Json.noConfusion h)

/-- Decidable equality of `JList`. -/
def JList.decEq : (xs ys : JList) → Decidable (xs = ys)
  | .nil, .nil => .isTrue rfl
  | .nil, .cons _ _ => .isFalse (fun h => JList.noConfusion h)
  | .cons _ _, .nil => .isFalse (fun h => JList.noConfusion h)
  | .cons x xs, .cons y ys =>
    match Json.decEq x y with
    | .isTrue h1 =>
      match JList.decEq xs ys with
      | .isTrue h2 => .isTrue (by rw [h1, h2])
      | .isFalse h2 => .isFalse (fun hc => h2 (by injection hc))
    | .isFalse h1 => .isFalse (fun hc => h1 (by injection hc))

/-- Decidable equality of `FList`. -/
def FList.decEq : (fs gs : FList) → Decidable (fs = gs)
  | .fnil, .fnil => .isTrue rfl
  | .fnil, .fcons _ _ _ => .isFalse (fun h => FList.noConfusion h)
  | .fcons _ _ _, .fnil => .isFalse (fun h => FList.noConfusion h)
  | .fcons k v fs, .fcons l w gs =>
    if hk : k = l then
      match Json.decEq v w with
      | .isTrue hv =>
        match FList.decEq fs gs with
        | .isTrue ht => .isTrue (by rw [hk, hv, ht])
        | .isFalse ht => .isFalse (fun hc => ht (by injection hc))
      | .isFalse hv => .isFalse (fun hc => by
          injection hc with h1 h2 h3
          exact hv h2)
    else .isFalse (fun hc => by
      injection hc with h1 h2 h3
      exact hk h1)

end

instance : DecidableEq Json := Json.decEq

instance : DecidableEq JList := JList.decEq

instance : DecidableEq FList := FList.decEq

instance : Inhabited Json := ⟨Json.null⟩

/-- Build a `JList` from a Lean list (notation helper). -/
def JList.ofList : List Json → JList
  | [] => .nil
  | x :: xs => .cons x (JList.ofList xs)

/-- The Lean list of a `JList`. -/
def JList.toList : JList → List Json
  | .nil => []
  | .cons x xs => x :: JList.toList xs

/-- Build an `FList` from a Lean list (notation helper). -/
def FList.ofList : List (String × Json) → FList
  | [] => .fnil
  | (k, v) :: rest => .fcons k v (FList.ofList rest)

/-- Array literal helper. -/
def Json.mkArr (l : List Json) : Json := .arr (JList.ofList l)

/-- Object literal helper. -/
def Json.mkObj (l : List (String × Json)) : Json := .obj (FList.ofList l)

/-- First binding of a key (Python dict keys are unique, so first-match
lookup models dict lookup). -/
def FList.lookup : FList → String → Option Json
  | .fnil, _ => none
  | .fcons k v rest, key => if k = key then some v else rest.lookup key

/-- `d[key]` / `d.get(key)` returning `none` when the key is absent.
Looking a key up in a non-dict raises in Python; the claims only exercise
dict-shaped records, where this agrees with the source. -/
def Json.get : Json → String → Option Json
  | .obj fs, key => fs.lookup key
  | _, _ => none

/-- Python `d.get(key)` with default `None`: a missing key yields `null`,
matching the fact that Python cannot distinguish a stored `None` from an
absent key through `dict.get`. -/
def Json.pyGet (j : Json) (key : String) : Json :=
  (j.get key).getD .null

/-- Python `d.get(key, default)`. -/
def Json.getD (j : Json) (key : String) (default : Json) : Json :=
  (j.get key).getD default

/-- Whether an `FList` is empty. -/
def FList.isEmpty : FList → Bool
  | .fnil => true
  | .fcons _ _ _ => false

/-- Whether a `JList` is empty. -/
def JList.isEmpty : JList → Bool
  | .nil => true
  | .cons _ _ => false

/-- Python truthiness of a JSON value (`if not x: ...`). -/
def Json.truthy : Json → Bool
  | .null => false
  | .bool b => b
  | .num q => q ≠ 0
  | .str s => s ≠ ""
  | .arr l => !l.isEmpty
  | .obj fs => !fs.isEmpty

/-- Remove every binding of `key` from a field list. -/
def FList.eraseKey : FList → String → FList
  | .fnil, _ => .fnil
  | .fcons k v rest, key =>
    if k = key then rest.eraseKey key else .fcons k v (rest.eraseKey key)

/-- Remove `key` from a dict, as `dict.pop(key, None)` does. -/
def Json.erase (j : Json) (key : String) : Json :=
  match j with
  | .obj fs => .obj (fs.eraseKey key)
  | other => other

/-- Replace the first binding of `key`, or append one: Python
`d[key] = v`. -/
def FList.set : FList → String → Json → FList
  | .fnil, key, v => .fcons key v .fnil
  | .fcons k w rest, key, v =>
    if k = key then .fcons key v rest else .fcons k w (rest.set key v)

/-- `d[key] = v` on a dict value. -/
def Json.setField (j : Json) (key : String) (v : Json) : Json :=
  match j with
  | .obj fs => .obj (fs.set key v)
  | other => other

/-! ## Timestamps: `CryptoLedger.ledger_parse_rfc3339` and the clock -/

/-- A UTC wall-clock time at second precision, as compared by
`datetime.utcnow() < parsed` in `CryptoLedger.ledger_not_expired`. -/
structure DT where
  year : Nat
  month : Nat
  day : Nat
  hour : Nat
  minute : Nat
  second : Nat
deriving DecidableEq, Repr

/-- Strict `datetime` comparison: lexicographic on the six components. -/
def DT.lt (a b : DT) : Bool :=
  if a.year ≠ b.year then a.year < b.year
  else if a.month ≠ b.month then a.month < b.month
  else if a.day ≠ b.day then a.day < b.day
  else if a.hour ≠ b.hour then a.hour < b.hour
  else if a.minute ≠ b.minute then a.minute < b.minute
  else a.second < b.second

/-- Numeric value of a run of decimal digit characters. -/
def digitsToNat (cs : List Char) : Nat :=
  cs.foldl (fun n c => 10 * n + (c.toNat - 48)) 0

/-- Take exactly `n` decimal digits from the front of the input. -/
def takeDigits : Nat → List Char → Option (Nat × List Char)
  | 0, cs => some (0, cs)
  | _ + 1, [] => none
  | n + 1, c :: cs =>
    if c.isDigit then
      (takeDigits n cs).map (fun p => ((c.toNat - 48) * 10 ^ n + p.1, p.2))
    else none

/-- A 1-or-2-digit field of `strptime`: two digits are taken when both are
digits and the two-digit value lies in `[lo, hi]`; otherwise a single
digit is taken when its value lies in `[lo1, hi1]` (mirroring the ordered
regex alternations `strptime` compiles for `%m`, `%d`, `%H`, `%M`, `%S`). -/
def takeField (lo hi lo1 hi1 : Nat) : List Char → Option (Nat × List Char)
  | c1 :: c2 :: rest =>
    if c1.isDigit ∧ c2.isDigit ∧
        lo ≤ digitsToNat [c1, c2] ∧ digitsToNat [c1, c2] ≤ hi then
      some (digitsToNat [c1, c2], rest)
    else if c1.isDigit ∧ lo1 ≤ c1.toNat - 48 ∧ c1.toNat - 48 ≤ hi1 then
      some (c1.toNat - 48, c2 :: rest)
    else none
  | [c1] =>
    if c1.isDigit ∧ lo1 ≤ c1.toNat - 48 ∧ c1.toNat - 48 ≤ hi1 then
      some (c1.toNat - 48, [])
    else none
  | [] => none

/-- Expect a literal character. -/
def takeLit (c : Char) : List Char → Option (List Char)
  | d :: rest => if d = c then some rest else none
  | [] => none

/-- Expect a literal letter in either case: CPython's `_strptime`
compiles the format regex with `re.IGNORECASE`, so the literal `T` and
`Z` of the format also match `t` and `z`. -/
def takeLitCI (upper lower : Char) : List Char → Option (List Char)
  | d :: rest => if d = upper ∨ d = lower then some rest else none
  | [] => none

/-- Gregorian leap year, as used by `datetime`'s day-of-month validation. -/
def isLeap (y : Nat) : Bool :=
  y % 4 = 0 && (y % 100 ≠ 0 || y % 400 = 0)

/-- Days in a month, as validated by the `datetime` constructor. -/
def daysInMonth (y m : Nat) : Nat :=
  if m = 2 then (if isLeap y then 29 else 28)
  else if m = 4 ∨ m = 6 ∨ m = 9 ∨ m = 11 then 30
  else 31

/-- `CryptoLedger.ledger_parse_rfc3339` (CryptoLedger.py:53-55):
`datetime.strptime(ts, "%Y-%m-%dT%H:%M:%SZ")`, `none` when it raises
`ValueError` (wrong shape, out-of-range field, unconsumed input, or an
invalid day for the month).  CPython compiles the format's regex with
`re.IGNORECASE`, so the literal `T`/`Z` also match lowercase `t`/`z`.
Seconds `60`/`61` pass the regex but make the `datetime` constructor
raise inside `strptime`, and so land in `none` here like any other
failure.  Digits are ASCII; Python's `\d` would additionally accept
non-ASCII Unicode decimal digits, which no value of this repository or
of the documented timestamp format uses — the one claim about malformed
timestamps is stated for ASCII strings, where this model and `strptime`
agree exactly. -/
def ledger_parse_rfc3339 (ts : String) : Option DT := do
  let cs := ts.toList
  let (y, cs) ← takeDigits 4 cs
  let cs ← takeLit '-' cs
  let (mo, cs) ← takeField 1 12 1 9 cs
  let cs ← takeLit '-' cs
  let (d, cs) ← takeField 1 31 1 9 cs
  let cs ← takeLitCI 'T' 't' cs
  let (h, cs) ← takeField 0 23 0 9 cs
  let cs ← takeLit ':' cs
  let (mi, cs) ← takeField 0 59 0 9 cs
  let cs ← takeLit ':' cs
  let (s, cs) ← takeField 0 59 0 9 cs
  let cs ← takeLitCI 'Z' 'z' cs
  if cs = [] ∧ 1 ≤ y ∧ d ≤ daysInMonth y mo then
    some ⟨y, mo, d, h, mi, s⟩
  else none

/-! ## `KeyManager.py` and the cryptographic primitives

The repository uses three third-party primitives: PyNaCl Ed25519
signatures, `base58`, and `pyld` (modelled further below).  Modelled from
the spec: Ed25519 is a deterministic signature scheme where a signature
made with a secret key validates exactly the signed message under the
corresponding public key, and base-58 is an injective byte-to-text
encoding.  Secret keys are modelled as seeds (`Nat`), raw public-key
bytes as the token `"vk<seed>"`, signatures as `"sig<seed>:<message>"`,
and — since the code only ever compares base-58 encodings for equality or
decodes what was previously encoded — base-58 as the identity on those
byte strings. -/

/-- Raw public-key bytes of the keypair with the given seed
(`SigningKey.verify_key`). -/
def vkOf (seed : Nat) : String := "vk" ++ toString seed

/-- `base58.b58encode(...).decode("ascii")`, modelled as the identity on
abstract byte strings (base-58 is injective, and the code only compares
encodings or decodes prior encodings). -/
def b58encode (bytes : String) : String := bytes

/-- `base58.b58decode`, the inverse of `b58encode`. -/
def b58decode (text : String) : String := text

/-- `SigningKey.sign(body_bytes).signature`: the deterministic Ed25519
signature of `msg` under the key with seed `seed`. -/
def signBytes (seed : Nat) (msg : String) : String :=
  "sig" ++ toString seed ++ ":" ++ msg

/-- The characters of a string after its first two. -/
def strTail2 (s : String) : String := ⟨s.toList.drop 2⟩

/-- `VerifyKey(pub).verify(msg, sig)` as a boolean: true exactly when
`sig` is the signature of `msg` under the keypair whose public key is
`pub` (every failure mode — bad key, bad signature — is `false`, as the
caller catches the raised exceptions). -/
def verifySigBytes (pub msg sig : String) : Bool :=
  (pub.toList.take 2 == ['v', 'k']) &&
    (sig == "sig" ++ strTail2 pub ++ ":" ++ msg)

/-- `KeyManager._keys`: issuer id to signing-key seed. -/
structure KeyManager where
  keys : List (String × Nat)
deriving DecidableEq, Repr

/-- First-match lookup in a string-keyed association list (dict lookup). -/
def lookupStr {α : Type} : List (String × α) → String → Option α
  | [], _ => none
  | (k, v) :: rest, key => if k = key then some v else lookupStr rest key

/-- `KeyManager.key_get_signer` (KeyManager.py:47-49); `none` models the
`KeyError` raised for an unregistered issuer. -/
def key_get_signer (km : KeyManager) (issuer_id : String) : Option Nat :=
  lookupStr km.keys issuer_id

/-- `KeyManager.key_get_pubkey_b58` (KeyManager.py:51-53). -/
def key_get_pubkey_b58 (km : KeyManager) (issuer_id : String) : Option String :=
  (key_get_signer km issuer_id).map (fun sk => b58encode (vkOf sk))

/-- `KeyManager.key_export_public_keys` (KeyManager.py:55-57): the trust
root handed to the ledger in `Main.main`. -/
def key_export_public_keys (km : KeyManager) : List (String × String) :=
  km.keys.map (fun p => (p.1, b58encode (vkOf p.2)))

/-- The issuer segment of a verification-method URI:
`vm_uri.split("#", 1)[0]`, `none` when no `#` occurs (the `ValueError`
of the unpacking in KeyManager.py:64-67). -/
def splitIssuer (vm_uri : String) : Option String :=
  if vm_uri.toList.contains '#' then
    some ⟨vm_uri.toList.takeWhile (fun c => c ≠ '#')⟩
  else none

/-- `KeyManager.key_resolve_verification_method` (KeyManager.py:59-69):
raw public-key bytes for the issuer segment of the URI; `none` models the
exceptions (malformed URI, unregistered issuer). -/
def key_resolve_verification_method (km : KeyManager) (vm_uri : String) :
    Option String := do
  let issuer ← splitIssuer vm_uri
  let pub_b58 ← key_get_pubkey_b58 km issuer
  return b58decode pub_b58

/-! ## `JSONFactory.py`: canonicalization

`json_canonicalize_vc_for_signing` strips `proof` and runs
`pyld.jsonld.normalize` (URDNA2015, n-quads output) against the fixed
`LOCAL_CONTEXTS`: the inline AP2 mandates context (JSONFactory.py:50-88)
plus the W3C `credentials/v1` and `security/v1`/`v2` context files loaded
from `../contexts`, a directory outside `src/`.

Modelled from the spec: the W3C context files are not under `src/`, so
their term tables are taken from the published W3C contexts the loader
names (JSONFactory.py:45-48), and JSON-LD expansion semantics from the
JSON-LD 1.1 algorithm URDNA2015 presupposes.  The behaviour that matters
for every claim is which parts of a record reach the canonical bytes:

* a key mapped to an IRI by the active contexts is kept and its value
  expanded recursively;
* a key the contexts map with type `@json` (`payer_info`, `payee_info`,
  `payment_details`, `evidence`) is kept with its value serialized whole
  as a canonical JSON literal (sorted keys);
* a key mapped by no context is **dropped together with its entire
  value** (JSON-LD expansion discards unmapped terms — neither
  `credentials/v1` nor the AP2 context declares `@vocab`);
* `@context` itself produces no output; the output is serialized in a
  deterministic (sorted) order, as URDNA2015 sorts the emitted n-quads.

Records of this repository all carry the fixed three-element `@context`
built by `MandateFactory.mandate_wrap_vc`, which the model presupposes. -/

/-- How the fixed contexts treat a key. -/
inductive TermKind where
  | keep
  | json
  | drop
deriving DecidableEq, Repr

/-- Term table of the fixed `LOCAL_CONTEXTS`: the inline AP2 context
(JSONFactory.py:50-88) and, modelled from the spec, the W3C
credentials/security contexts (`id`/`type` keywords, the
`VerifiableCredential` scoped terms, and the proof terms). -/
def termKind (key : String) : TermKind :=
  if key ∈ ["payer_info", "payee_info", "payment_details", "evidence"] then
    .json
  else if key ∈ ["id", "type", "issuer", "issuanceDate", "expirationDate",
      "credentialSubject", "credentialSchema", "credentialStatus", "proof",
      "verificationMethod", "created", "proofPurpose", "proofValue",
      "mandate_id", "prev_mandate_id", "prev_mandate_ids", "merchant_id",
      "refund_id", "original_payment_id", "refund_amount", "refund_reason",
      "flag_id", "flagged_mandate_id", "fraud_reason",
      "counterparty", "currency", "amount", "settlement_run", "timestamp"] then
    .keep
  else
    .drop

/-- Code-point lexicographic comparison of character lists. -/
def charsLe : List Char → List Char → Bool
  | [], _ => true
  | _ :: _, [] => false
  | c :: cs, d :: ds =>
    if c = d then charsLe cs ds else Nat.blt c.toNat d.toNat

/-- Code-point lexicographic order on strings (the order `≤` on `String`
denotes, written to compute by kernel reduction). -/
def strLe (a b : String) : Bool := charsLe a.toList b.toList

/-- Insert a field into a key-sorted field list. -/
def FList.insertSorted (key : String) (v : Json) : FList → FList
  | .fnil => .fcons key v .fnil
  | .fcons l w rest =>
    if strLe key l then .fcons key v (.fcons l w rest)
    else .fcons l w (rest.insertSorted key v)

/-- Sort a field list by key (the deterministic ordering canonicalization
imposes on output). -/
def FList.sortFields : FList → FList
  | .fnil => .fnil
  | .fcons k v rest => (rest.sortFields).insertSorted k v

mutual

/-- Canonical-JSON form of an `@json` literal: every key kept, objects
key-sorted at every level (JSON-LD 1.1 canonicalizes `@json` literal
values with sorted keys). -/
def Json.jcs : Json → Json
  | .null => .null
  | .bool b => .bool b
  | .num q => .num q
  | .str s => .str s
  | .arr l => .arr l.jcsElems
  | .obj fs => .obj fs.jcsFields.sortFields

/-- `Json.jcs` on each element. -/
def JList.jcsElems : JList → JList
  | .nil => .nil
  | .cons x xs => .cons x.jcs xs.jcsElems

/-- `Json.jcs` on each value. -/
def FList.jcsFields : FList → FList
  | .fnil => .fnil
  | .fcons k v rest => .fcons k v.jcs rest.jcsFields

end

mutual

/-- JSON-LD expansion + URDNA2015 under the fixed contexts, as a
structural projection: unmapped keys are dropped with their values,
`@json` keys keep their value in canonical-JSON form, mapped keys recurse,
and output order is deterministic (sorted). -/
def Json.ldNormalize : Json → Json
  | .null => .null
  | .bool b => .bool b
  | .num q => .num q
  | .str s => .str s
  | .arr l => .arr l.ldNormElems
  | .obj fs => .obj fs.ldNormFields.sortFields

/-- `Json.ldNormalize` on each element. -/
def JList.ldNormElems : JList → JList
  | .nil => .nil
  | .cons x xs => .cons x.ldNormalize xs.ldNormElems

/-- The per-key context treatment: drop, `@json` literal, or recurse. -/
def FList.ldNormFields : FList → FList
  | .fnil => .fnil
  | .fcons k v rest =>
    match termKind k with
    | .drop => rest.ldNormFields
    | .json => .fcons k v.jcs rest.ldNormFields
    | .keep => .fcons k v.ldNormalize rest.ldNormFields

end

mutual

/-- Deterministic byte serialization of a (normalized) value: the model
of the n-quads text `jsonld.normalize` returns. -/
def Json.serialize : Json → String
  | .null => "null"
  | .bool b => if b then "true" else "false"
  | .num q => toString q.num ++ "/" ++ toString q.den
  | .str s => "\"" ++ s ++ "\""
  | .arr l => "[" ++ l.serializeElems ++ "]"
  | .obj fs => "\x7b" ++ fs.serializeFields ++ "\x7d"

/-- Comma-separated serialization of array elements. -/
def JList.serializeElems : JList → String
  | .nil => ""
  | .cons x .nil => x.serialize
  | .cons x xs => x.serialize ++ "," ++ xs.serializeElems

/-- Comma-separated serialization of object fields. -/
def FList.serializeFields : FList → String
  | .fnil => ""
  | .fcons k v .fnil => "\"" ++ k ++ "\":" ++ v.serialize
  | .fcons k v rest =>
    "\"" ++ k ++ "\":" ++ v.serialize ++ "," ++ rest.serializeFields

end

/-- `JSONFactory.json_canonicalize_vc_for_signing` (JSONFactory.py:104-116):
drop `proof`, normalize against the fixed contexts, and return the
canonical bytes. -/
def json_canonicalize_vc_for_signing (vc : Json) : String :=
  ((vc.erase "proof").ldNormalize).serialize

/-! ## `MandateSigner.py` -/

/-- `MandateSigner.sign` (MandateSigner.py:50-63): canonicalize the body,
sign it with the issuer's key, and return the proof dict.  The fresh
`created` wall-clock timestamp is a parameter.  `none` models the
`KeyError` of `key_get_signer` for an unregistered issuer. -/
def MandateSigner.sign (km : KeyManager) (issuer_id : String)
    (created : String) (mandate_body : Json) : Option Json :=
  (key_get_signer km issuer_id).map (fun sk =>
    Json.mkObj
      [("type", .str "Ed25519Signature2020"),
       ("created", .str created),
       ("verificationMethod", .str (issuer_id ++ "#keys-1")),
       ("proofPurpose", .str "assertionMethod"),
       ("proofValue",
        .str (b58encode (signBytes sk
          (json_canonicalize_vc_for_signing mandate_body))))])

/-- `MandateSigner.verify` (MandateSigner.py:65-90): falsy/absent proof,
missing `verificationMethod`/`proofValue`, resolution failure, bad key or
bad signature all return `false` (the method catches every exception). -/
def MandateSigner.verify (mandate : Json) (km : KeyManager) : Bool :=
  let proof := mandate.pyGet "proof"
  if !proof.truthy then false
  else
    let body_bytes := json_canonicalize_vc_for_signing (mandate.erase "proof")
    match proof.get "verificationMethod" with
    | some (.str vm) =>
      match key_resolve_verification_method km vm with
      | some pubkey =>
        match proof.get "proofValue" with
        | some (.str pv) => verifySigBytes pubkey body_bytes (b58decode pv)
        | _ => false
      | none => false
    | _ => false

/-! ## `MandateFactory.mandate_wrap_vc` -/

/-- `MandateFactory.mandate_wrap_vc` (MandateFactory.py:57-86): build the
VC envelope around a payload and attach the signer's proof.  The fresh
uuid and the wall-clock timestamps are parameters.  `expiration or
self.mandate_expiry(1)` picks `default_expiry` when `expiration` is falsy
(absent or empty).  Signing with an unregistered issuer raises in Python;
that case is modelled by returning the unsigned envelope (no claim
exercises it). -/
def mandate_wrap_vc (km : KeyManager) (issuer_id : String)
    (vc_uuid issuance default_expiry created : String)
    (mandate_type : String) (payload : Json) (expiration : Option String) :
    Json :=
  let vc : Json := Json.mkObj
    [("@context", Json.mkArr
        [.str "https://www.w3.org/2018/credentials/v1",
         .str "https://ap2-protocol.org/contexts/mandates/v1",
         .str "https://w3id.org/security/v2"]),
     ("id", .str ("urn:uuid:" ++ vc_uuid)),
     ("type", Json.mkArr [.str "VerifiableCredential", .str mandate_type]),
     ("issuer", .str issuer_id),
     ("issuanceDate", .str issuance),
     ("expirationDate", .str
        (match expiration with
         | some e => if e ≠ "" then e else default_expiry
         | none => default_expiry)),
     ("credentialSchema", Json.mkObj
        [("id", .str "https://ap2-protocol.org/schemas/mandate-schema.json"),
         ("type", .str "JsonSchemaValidator2018")]),
     ("credentialStatus", Json.mkObj
        [("id", .str "https://ap2-protocol.org/status/registry#revocation-list-1"),
         ("type", .str "RevocationList2020Status")]),
     ("credentialSubject", payload)]
  match MandateSigner.sign km issuer_id created vc with
  | some proof => vc.setField "proof" proof
  | none => vc

/-! ## `CryptoLedger.py` -/

/-- The ledger state (CryptoLedger.py:47-51). -/
structure CryptoLedger where
  trusted_issuers : List (String × String)
  key_manager : KeyManager
  transactions : List Json
  revoked_ids : List String
deriving DecidableEq

/-- `CryptoLedger.ledger_not_expired` (CryptoLedger.py:57-65): a falsy
`expirationDate` (absent, `None`, or the empty string) passes; otherwise
the value must parse in the fixed format and the clock must be strictly
before it; a parse failure (including a truthy non-string value, whose
`strptime` raises a caught `TypeError`) fails. -/
def ledger_not_expired (now : DT) (vc : Json) : Bool :=
  let exp := vc.pyGet "expirationDate"
  if !exp.truthy then true
  else
    match exp with
    | .str s =>
      match ledger_parse_rfc3339 s with
      | some d => DT.lt now d
      | none => false
    | _ => false

/-- `CryptoLedger.ledger_not_revoked` (CryptoLedger.py:67-72): a falsy id
fails; a string id must not be in the revoked-id set.  (A truthy
non-string id is never in the set of string ids, hence passes; unhashable
ids would raise in Python and appear in no claim.) -/
def ledger_not_revoked (revoked_ids : List String) (vc : Json) : Bool :=
  let vc_id := vc.pyGet "id"
  if !vc_id.truthy then false
  else
    match vc_id with
    | .str s => !(revoked_ids.contains s)
    | _ => true

/-- `CryptoLedger.ledger_issuer_trusted` (CryptoLedger.py:74-100): issuer
and verification method must be truthy, the issuer must map to a truthy
key in the trust root, and the key resolved from the verification method
must encode to exactly the registered key; any resolution exception is
`false`.  (A non-string issuer is looked up in the string-keyed trust
root and found absent; a truthy non-string verification method makes the
resolver raise, which the `try` turns into `false`.) -/
def ledger_issuer_trusted (L : CryptoLedger) (mandate : Json) : Bool :=
  let proof := mandate.getD "proof" (Json.mkObj [])
  let issuer := mandate.pyGet "issuer"
  let vm := proof.pyGet "verificationMethod"
  if !issuer.truthy || !vm.truthy then false
  else
    let expected :=
      match issuer with
      | .str s => lookupStr L.trusted_issuers s
      | _ => none
    match expected with
    | none => false
    | some expected_pub_b58 =>
      if expected_pub_b58 = "" then false
      else
        match vm with
        | .str vms =>
          match key_resolve_verification_method L.key_manager vms with
          | some resolved_pub => b58encode resolved_pub == expected_pub_b58
          | none => false
        | _ => false

/-- `CryptoLedger.ledger_verify_mandate` (CryptoLedger.py:102-119):
trust, expiration, revocation, then signature, short-circuiting. -/
def ledger_verify_mandate (L : CryptoLedger) (now : DT) (mandate : Json) :
    Bool :=
  ledger_issuer_trusted L mandate &&
  ledger_not_expired now mandate &&
  ledger_not_revoked L.revoked_ids mandate &&
  MandateSigner.verify mandate L.key_manager

/-- `CryptoLedger.ledger_vc_previous` (CryptoLedger.py:121-122). -/
def ledger_vc_previous (vc : Json) : Json :=
  (vc.getD "credentialSubject" (Json.mkObj [])).pyGet "prev_mandate_id"

/-- `CryptoLedger.ledger_vc_id` (CryptoLedger.py:124-125). -/
def ledger_vc_id (vc : Json) : Json :=
  vc.pyGet "id"

/-- `CryptoLedger.ledger_verify_chain` (CryptoLedger.py:127-133): every
consecutive pair must satisfy `curr.prev_mandate_id == prev.id` (Python
`==`, where a missing value is `None` on either side). -/
def ledger_verify_chain : List Json → Bool
  | m1 :: m2 :: rest =>
    (ledger_vc_previous m2 == ledger_vc_id m1) &&
      ledger_verify_chain (m2 :: rest)
  | _ => true

/-- `txn_record.get("mandates", [])` (CryptoLedger.py:141), as a list. -/
def getMandates (txn_record : Json) : List Json :=
  match txn_record.getD "mandates" (Json.mkArr []) with
  | .arr l => l.toList
  | _ => []

/-- Last element of a `JList`. -/
def JList.getLast : JList → Option Json
  | .nil => none
  | .cons x .nil => some x
  | .cons _ (.cons y ys) => JList.getLast (.cons y ys)

/-- `mandates[0]["type"][-1]` as an optional value.  A record with no
`"type"` list makes the Python raise (uncaught) rather than reject, and a
string `"type"` yields a single character that can never equal
`"IntentMandate"`; both are modelled as `none` and appear in no claim. -/
def typeLast (m : Json) : Option Json :=
  match m.get "type" with
  | some (.arr l) => l.getLast
  | _ => none

/-- The canonical-payment-shape test of CryptoLedger.py:155:
`len(mandates) >= 3 and mandates[0]["type"][-1] == "IntentMandate"`. -/
def isCanonicalShape (mandates : List Json) : Bool :=
  3 ≤ mandates.length &&
    match mandates with
    | m :: _ => typeLast m == some (.str "IntentMandate")
    | [] => false

/-- Python `float(x)` on strings: plain decimal strings (optional sign,
digits, optional fraction, surrounding whitespace) parse, everything else
raises (`none`).  Exponent/infinity forms are omitted: no value of this
repository uses them. -/
def parsePyFloat (s : String) : Option ℚ :=
  let cs := ((s.toList.dropWhile Char.isWhitespace).reverse.dropWhile
      Char.isWhitespace).reverse
  let signAndRest : ℚ × List Char :=
    match cs with
    | '+' :: rest => (1, rest)
    | '-' :: rest => (-1, rest)
    | rest => (1, rest)
  let sign := signAndRest.1
  let cs := signAndRest.2
  let intPart := cs.takeWhile Char.isDigit
  let rest := cs.drop intPart.length
  match rest with
  | [] => if intPart = [] then none else some (sign * digitsToNat intPart)
  | '.' :: fracCs =>
    let fracPart := fracCs.takeWhile Char.isDigit
    if fracCs.drop fracPart.length ≠ [] then none
    else if intPart = [] ∧ fracPart = [] then none
    else some (sign *
      ((digitsToNat intPart : ℚ) +
        (digitsToNat fracPart : ℚ) / (10 ^ fracPart.length)))
  | _ => none

/-- `float(...)` applied to a JSON value: numbers and booleans convert,
strings parse, everything else raises (`none`). -/
def pyFloat : Json → Option ℚ
  | .num q => some q
  | .bool b => some (if b then 1 else 0)
  | .str s => parsePyFloat s
  | _ => none

/-- The intent-side extraction of step 4 (CryptoLedger.py:158-161 and
252-254): `details.amount` (as float), `details.currency`,
`merchant_id`; `none` models the caught `KeyError`/`ValueError`. -/
def extractIntentTerms (intent_subject : Json) : Option (ℚ × Json × Json) := do
  let details ← intent_subject.get "details"
  let a ← details.get "amount"
  let amount_intent ← pyFloat a
  let currency_intent ← details.get "currency"
  let receiver_intent ← intent_subject.get "merchant_id"
  return (amount_intent, currency_intent, receiver_intent)

/-- The cart-side extraction of step 4 (CryptoLedger.py:163-167 and
256-259): `contents.payment_request.details.total.amount.{value,currency}`
and `merchant_id`. -/
def extractCartTerms (cart_subject : Json) : Option (ℚ × Json × Json) := do
  let contents ← cart_subject.get "contents"
  let payment_request ← contents.get "payment_request"
  let cart_details ← payment_request.get "details"
  let total ← cart_details.get "total"
  let amount ← total.get "amount"
  let v ← amount.get "value"
  let total_cart ← pyFloat v
  let currency_cart ← amount.get "currency"
  let receiver_cart ← cart_subject.get "merchant_id"
  return (total_cart, currency_cart, receiver_cart)

/-- The payment-side extraction of step 4 (CryptoLedger.py:169-173 and
261-264): `payment_details.{amount,currency}` and `merchant_id`. -/
def extractPaymentTerms (payment_subject : Json) : Option (ℚ × Json × Json) := do
  let payment_details ← payment_subject.get "payment_details"
  let a ← payment_details.get "amount"
  let amount_payment ← pyFloat a
  let currency_payment ← payment_details.get "currency"
  let receiver_payment ← payment_subject.get "merchant_id"
  return (amount_payment, currency_payment, receiver_payment)

/-- The chained comparisons of CryptoLedger.py:175-179 / 266-270. -/
def termsConsistent (i c p : ℚ × Json × Json) : Bool :=
  i.1 == c.1 && c.1 == p.1 &&
  i.2.1 == c.2.1 && c.2.1 == p.2.1 &&
  i.2.2 == c.2.2 && c.2.2 == p.2.2

/-- Step 4 of `add_transaction` (CryptoLedger.py:156-181) over the first
three records, in source order: intent block, cart block, payment block,
then the chained comparison; `none` is the caught exception. -/
def crossCheck3 (intent_vc cart_vc payment_vc : Json) : Option Bool := do
  let intent_subject ← intent_vc.get "credentialSubject"
  let i ← extractIntentTerms intent_subject
  let cart_subject ← cart_vc.get "credentialSubject"
  let c ← extractCartTerms cart_subject
  let payment_subject ← payment_vc.get "credentialSubject"
  let p ← extractPaymentTerms payment_subject
  return termsConsistent i c p

/-- The body of `ledger_check_consistency` (CryptoLedger.py:247-270), in
its own source order: the three subjects first, then the three value
blocks, then the chained comparison. -/
def crossCheckReport (intent_vc cart_vc payment_vc : Json) : Option Bool := do
  let intent_subject ← intent_vc.get "credentialSubject"
  let cart_subject ← cart_vc.get "credentialSubject"
  let payment_subject ← payment_vc.get "credentialSubject"
  let i ← extractIntentTerms intent_subject
  let c ← extractCartTerms cart_subject
  let p ← extractPaymentTerms payment_subject
  return termsConsistent i c p

/-- `CryptoLedger.add_transaction` (CryptoLedger.py:135-188): empty
batch, any failing per-mandate check, a broken chain, or (for the
canonical payment shape) a failed cross-record check reject with the
state unchanged; otherwise the record is appended. -/
def add_transaction (L : CryptoLedger) (now : DT) (txn_record : Json) :
    CryptoLedger × Bool :=
  let mandates := getMandates txn_record
  if mandates.isEmpty then (L, false)
  else if !(mandates.all (ledger_verify_mandate L now)) then (L, false)
  else if !(ledger_verify_chain mandates) then (L, false)
  else if isCanonicalShape mandates then
    match mandates with
    | intent_vc :: cart_vc :: payment_vc :: _ =>
      if (crossCheck3 intent_vc cart_vc payment_vc).getD false then
        ({ L with transactions := L.transactions ++ [txn_record] }, true)
      else (L, false)
    | _ => (L, false)
  else ({ L with transactions := L.transactions ++ [txn_record] }, true)

/-- `CryptoLedger.ledger_check_consistency` (CryptoLedger.py:242-273). -/
def ledger_check_consistency (txn : Json) : Bool :=
  let mandates := getMandates txn
  if isCanonicalShape mandates then
    match mandates with
    | intent_vc :: cart_vc :: payment_vc :: _ =>
      (crossCheckReport intent_vc cart_vc payment_vc).getD false
    | _ => false
  else true

/-- The boolean step 4 of `add_transaction` produces on a record (true =
proceed): used to state acceptance as one conjunction. -/
def step4_check (txn_record : Json) : Bool :=
  let mandates := getMandates txn_record
  if isCanonicalShape mandates then
    match mandates with
    | intent_vc :: cart_vc :: payment_vc :: _ =>
      (crossCheck3 intent_vc cart_vc payment_vc).getD false
    | _ => false
  else true

/-- Modelled from the spec: §6 lists `revoke(mandate_id)` among the core
operations and §8 describes its effect, but no implementation appears
under `src/` — `revoked_ids` (CryptoLedger.py:51) is only ever read by
`ledger_not_revoked`.  `revoke` adds the id to the revoked-id set. -/
def revoke (L : CryptoLedger) (mandate_id : String) : CryptoLedger :=
  { L with revoked_ids := mandate_id :: L.revoked_ids }

/-! ## Concrete instances

A key registry and ledger mirroring `Main.main` (Main.py:450-466), and
factory-shaped mandates for one payment flow, used as witnesses and
counterexamples below.  Keypair seeds stand for the four freshly
generated Ed25519 keypairs. -/

/-- The four issuers `Main.main` registers. -/
def exKM : KeyManager :=
  ⟨[("issuer:user-wallet", 1), ("issuer:merchant", 2),
    ("issuer:processor", 3), ("issuer:netting", 4)]⟩

/-- The ledger constructed in `Main.main`: trust root =
`key_export_public_keys`, no transactions, nothing revoked. -/
def exLedger : CryptoLedger :=
  ⟨key_export_public_keys exKM, exKM, [], []⟩

/-- Issuance timestamp of the example flow. -/
def exIssued : String := "2026-01-01T00:00:00Z"

/-- Expiration timestamp of the example flow (`mandate_expiry(1)`). -/
def exExpiry : String := "2026-01-01T01:00:00Z"

/-- The clock during verification: half past issuance, before expiry. -/
def exNow : DT := ⟨2026, 1, 1, 0, 30, 0⟩

/-- Intent payload as `MandateFactory.sending` lays it out (trimmed to
the fields the ledger reads plus representative extras). -/
def exIntentPayload : Json := Json.mkObj
  [("label", .str "User intent to initiate payment"),
   ("note", .str "coffee"),
   ("mandate_id", .str "im-1"),
   ("prev_mandate_id", .null),
   ("merchant_id", .str "issuer:merchant"),
   ("details", Json.mkObj
     [("action", .str "send"),
      ("amount", .num 10),
      ("currency", .str "EUR"),
      ("destination", .str "issuer:merchant"),
      ("note", .str "coffee")])]

/-- The signed intent mandate. -/
def exIntent : Json :=
  mandate_wrap_vc exKM "issuer:user-wallet" "i1" exIssued exExpiry exIssued
    "IntentMandate" exIntentPayload none

/-- Cart payload as `MandateFactory.checkout` lays it out. -/
def exCartPayload : Json := Json.mkObj
  [("label", .str "Merchant checkout confirmation"),
   ("note", .str "coffee"),
   ("mandate_id", .str "cm-1"),
   ("prev_mandate_id", .str "urn:uuid:i1"),
   ("merchant_id", .str "issuer:merchant"),
   ("contents", Json.mkObj
     [("id", .str "cart-1"),
      ("payment_request", Json.mkObj
        [("id", .str "cart-1"),
         ("details", Json.mkObj
           [("total", Json.mkObj
             [("label", .str "Total"),
              ("amount", Json.mkObj
                [("currency", .str "EUR"), ("value", .num 10)])])])])]),
   ("timestamp", .str "2026-01-01T00:00:00Z")]

/-- The signed cart mandate, chained to the intent. -/
def exCart : Json :=
  mandate_wrap_vc exKM "issuer:merchant" "c1" exIssued exExpiry exIssued
    "CartMandate" exCartPayload none

/-- Payment payload as `MandateFactory.confirmation` lays it out. -/
def exPaymentPayload : Json := Json.mkObj
  [("label", .str "Finalized payment for transaction txn-1"),
   ("mandate_id", .str "pm-1"),
   ("prev_mandate_id", .str "urn:uuid:c1"),
   ("merchant_id", .str "issuer:merchant"),
   ("payment_details", Json.mkObj
     [("transaction_id", .str "txn-1"),
      ("status", .str "SUCCESS"),
      ("amount", .num 10),
      ("currency", .str "EUR")])]

/-- The signed payment mandate, chained to the cart. -/
def exPayment : Json :=
  mandate_wrap_vc exKM "issuer:processor" "p1" exIssued exExpiry exIssued
    "PaymentMandate" exPaymentPayload none

/-- Netting payload as `MandateFactory.netting` lays it out, chained to
the cart (Main.py:137-144), with the same terms as intent and cart. -/
def exNettingPayload : Json := Json.mkObj
  [("label", .str "Netting obligation for settlement run RUN1"),
   ("mandate_id", .str "nm-1"),
   ("prev_mandate_id", .str "urn:uuid:c1"),
   ("prev_mandate_ids", Json.mkArr [.str "urn:uuid:c1"]),
   ("merchant_id", .str "issuer:merchant"),
   ("payment_details", Json.mkObj
     [("amount", .num 10),
      ("currency", .str "EUR"),
      ("counterparty", .str "issuer:merchant"),
      ("settlement_run", .str "RUN1")])]

/-- The signed netting mandate. -/
def exNetting : Json :=
  mandate_wrap_vc exKM "issuer:netting" "n1" exIssued exExpiry exIssued
    "NettingMandate" exNettingPayload none

/-- A payment mandate chained to the netting record whose
`payment_details.amount` (99) differs from the 10 of intent, cart and
netting. -/
def exPaymentOddPayload : Json := Json.mkObj
  [("label", .str "Finalized payment for transaction txn-2"),
   ("mandate_id", .str "pm-2"),
   ("prev_mandate_id", .str "urn:uuid:n1"),
   ("merchant_id", .str "issuer:merchant"),
   ("payment_details", Json.mkObj
     [("transaction_id", .str "txn-2"),
      ("status", .str "SUCCESS"),
      ("amount", .num 99),
      ("currency", .str "EUR")])]

/-- The signed odd-amount payment mandate. -/
def exPaymentOdd : Json :=
  mandate_wrap_vc exKM "issuer:processor" "p2" exIssued exExpiry exIssued
    "PaymentMandate" exPaymentOddPayload none

/-- A transaction record around a batch of mandates, as built by
`PaymentProcessor.process_payment` / `AgentPrompt`. -/
def mkTxn (mandates : List Json) : Json := Json.mkObj
  [("transaction_id", .str "txn-1"),
   ("sender", .str "issuer:user-wallet"),
   ("receiver", .str "issuer:merchant"),
   ("amount", .num 10),
   ("currency", .str "EUR"),
   ("mandates", Json.mkArr mandates)]

/-- The canonical 3-mandate payment batch. -/
def exTxn3 : Json := mkTxn [exIntent, exCart, exPayment]

/-- The 4-mandate netting batch whose final payment record carries a
different amount. -/
def exTxn4 : Json := mkTxn [exIntent, exCart, exNetting, exPaymentOdd]

/-- The signing step at the end of `mandate_wrap_vc`
(MandateFactory.py:85-86), applied to an arbitrary prebuilt body:
`vc["proof"] = signer.sign(vc)`. -/
def signAttach (km : KeyManager) (issuer_id created : String) (body : Json) :
    Json :=
  match MandateSigner.sign km issuer_id created body with
  | some proof => body.setField "proof" proof
  | none => body

/-- The intent payload with `details.amount` changed to 999 — a signed
field, since `credentialSubject` is part of the signable content. -/
def exIntentPayloadTampered : Json :=
  exIntentPayload.setField "details" (Json.mkObj
    [("action", .str "send"),
     ("amount", .num 999),
     ("currency", .str "EUR"),
     ("destination", .str "issuer:merchant"),
     ("note", .str "coffee")])

/-- `exIntent` with its subject payload altered after signing (the proof
is kept unchanged). -/
def exIntentTampered : Json :=
  exIntent.setField "credentialSubject" exIntentPayloadTampered

/-- An intent VC body whose `expirationDate` is present but is the empty
string (a malformed timestamp), signed over that body. -/
def exIntentEmptyExpBody : Json := Json.mkObj
  [("@context", Json.mkArr
      [.str "https://www.w3.org/2018/credentials/v1",
       .str "https://ap2-protocol.org/contexts/mandates/v1",
       .str "https://w3id.org/security/v2"]),
   ("id", .str "urn:uuid:i2"),
   ("type", Json.mkArr [.str "VerifiableCredential", .str "IntentMandate"]),
   ("issuer", .str "issuer:user-wallet"),
   ("issuanceDate", .str "2026-01-01T00:00:00Z"),
   ("expirationDate", .str ""),
   ("credentialSubject", Json.mkObj
     [("mandate_id", .str "im-2"),
      ("prev_mandate_id", .null),
      ("merchant_id", .str "issuer:merchant")])]

/-- The signed empty-expiration intent mandate. -/
def exIntentEmptyExp : Json :=
  signAttach exKM "issuer:user-wallet" exIssued exIntentEmptyExpBody

/-- The clock at exactly the expiration instant of the example flow. -/
def exNowAtExpiry : DT := ⟨2026, 1, 1, 1, 0, 0⟩

/-- An intent mandate whose expiration uses lowercase `t`/`z`
separators, which `strptime`'s case-insensitive regex parses. -/
def exIntentLowerExp : Json :=
  mandate_wrap_vc exKM "issuer:user-wallet" "i3" exIssued exExpiry exIssued
    "IntentMandate" (Json.mkObj
      [("mandate_id", .str "im-3"),
       ("prev_mandate_id", .null),
       ("merchant_id", .str "issuer:merchant")])
    (some "2099-01-01t00:00:00z")

/-- A single-mandate batch around the lowercase-separator intent. -/
def exTxnLowerExp : Json := mkTxn [exIntentLowerExp]

/-- An intent mandate whose expiration is the unparseable ASCII string
`"not-a-date"`. -/
def exIntentBadExp : Json :=
  mandate_wrap_vc exKM "issuer:user-wallet" "i4" exIssued exExpiry exIssued
    "IntentMandate" (Json.mkObj
      [("mandate_id", .str "im-4"),
       ("prev_mandate_id", .null),
       ("merchant_id", .str "issuer:merchant")])
    (some "not-a-date")

/-- A single-mandate batch around the bad-expiration intent. -/
def exTxnBadExp : Json := mkTxn [exIntentBadExp]

/-- A trust root registering a key for `issuer:user-wallet` that differs
from the key its verification method resolves to. -/
def exLedgerWrongKey : CryptoLedger :=
  ⟨[("issuer:user-wallet", "vk9")], exKM, [], []⟩

/-- A cart payload whose total (77) differs from the intent's 10. -/
def exCartOddPayload : Json := Json.mkObj
  [("label", .str "Merchant checkout confirmation"),
   ("mandate_id", .str "cm-2"),
   ("prev_mandate_id", .str "urn:uuid:i1"),
   ("merchant_id", .str "issuer:merchant"),
   ("contents", Json.mkObj
     [("id", .str "cart-2"),
      ("payment_request", Json.mkObj
        [("id", .str "cart-2"),
         ("details", Json.mkObj
           [("total", Json.mkObj
             [("label", .str "Total"),
              ("amount", Json.mkObj
                [("currency", .str "EUR"), ("value", .num 77)])])])])])]

/-- The signed odd-total cart mandate, chained to the intent. -/
def exCartOdd : Json :=
  mandate_wrap_vc exKM "issuer:merchant" "c2" exIssued exExpiry exIssued
    "CartMandate" exCartOddPayload none

/-- A 2-mandate intent-then-cart batch whose amounts disagree. -/
def exTxn2 : Json := mkTxn [exIntent, exCartOdd]

/-- A batch whose second record does not link to the first
(`exPaymentOdd.prev = urn:uuid:n1` but `exIntent.id = urn:uuid:i1`). -/
def exTxnBroken : Json := mkTxn [exIntent, exPaymentOdd]

/-- An empty batch. -/
def exTxnEmpty : Json := mkTxn []

/-- A single-mandate batch around the intent. -/
def exTxnIntentOnly : Json := mkTxn [exIntent]

/-- A single-mandate batch around the empty-expiration intent. -/
def exTxnEmptyExp : Json := mkTxn [exIntentEmptyExp]

/-- A batch containing a record with no id at all. -/
def exTxnNoId : Json := mkTxn [Json.mkObj [("issuer", .str "issuer:user-wallet")]]

/-! ## Claim-level predicates -/

/-- The trust conditions of claim C2, spelled out: a non-empty issuer
string present in the trust root with a truthy registered key, a
non-empty verification-method string that resolves, and the resolved key
byte-for-byte (after the injective base-58 encoding) equal to the
registered key. -/
def TrustConditions (L : CryptoLedger) (m : Json) : Prop :=
  ∃ issuer vm expected resolved,
    m.pyGet "issuer" = .str issuer ∧ issuer ≠ "" ∧
    (m.getD "proof" (Json.mkObj [])).pyGet "verificationMethod" = .str vm ∧
    vm ≠ "" ∧
    lookupStr L.trusted_issuers issuer = some expected ∧ expected ≠ "" ∧
    key_resolve_verification_method L.key_manager vm = some resolved ∧
    b58encode resolved = expected

/-- The expiration condition of claim C5 on one mandate: whenever a
truthy expiration value is present it is a string that parses in the
fixed format to an instant strictly after the clock. -/
def ExpirationOK (now : DT) (m : Json) : Prop :=
  (m.pyGet "expirationDate").truthy = true →
    ∃ s d, m.pyGet "expirationDate" = .str s ∧
      ledger_parse_rfc3339 s = some d ∧ DT.lt now d = true

/-- Chain linkage of claim C4: every consecutive pair (previous,
current) satisfies `current.credentialSubject.prev_mandate_id =
previous.id`. -/
def ChainLinked (mandates : List Json) : Prop :=
  List.Chain' (fun p c => ledger_vc_previous c = ledger_vc_id p) mandates

/-! ## Structural lemmas -/

theorem add_transaction_eq (L : CryptoLedger) (now : DT) (txn : Json) :
    add_transaction L now txn =
      (if (!(getMandates txn).isEmpty &&
           ((getMandates txn).all (ledger_verify_mandate L now) &&
            (ledger_verify_chain (getMandates txn) &&
             step4_check txn))) then
        ({ L with transactions := L.transactions ++ [txn] }, true)
      else (L, false)) := by
  simp only [add_transaction]
  rcases h : getMandates txn with _ | ⟨a, _ | ⟨b, _ | ⟨c, rest⟩⟩⟩
  · simp [step4_check, h]
  · cases h1 : List.all [a] (ledger_verify_mandate L now) <;>
      cases h2 : ledger_verify_chain [a] <;>
        simp [step4_check, h, isCanonicalShape, h1, h2]
  · cases h1 : List.all [a, b] (ledger_verify_mandate L now) <;>
      cases h2 : ledger_verify_chain [a, b] <;>
        simp [step4_check, h, isCanonicalShape, h1, h2]
  · cases h1 : List.all (a :: b :: c :: rest) (ledger_verify_mandate L now) <;>
      cases h2 : ledger_verify_chain (a :: b :: c :: rest) <;>
        cases h3 : typeLast a == some (.str "IntentMandate") <;>
          cases h4 : (crossCheck3 a b c).getD false <;>
            simp [step4_check, h, isCanonicalShape, h1, h2, h3, h4,
              Nat.le_add_left]

theorem add_transaction_snd (L : CryptoLedger) (now : DT) (txn : Json) :
    (add_transaction L now txn).2 =
      (!(getMandates txn).isEmpty &&
       ((getMandates txn).all (ledger_verify_mandate L now) &&
        (ledger_verify_chain (getMandates txn) &&
         step4_check txn))) := by
  rw [add_transaction_eq]
  cases hb : (!(getMandates txn).isEmpty &&
      ((getMandates txn).all (ledger_verify_mandate L now) &&
       (ledger_verify_chain (getMandates txn) && step4_check txn))) <;>
    simp [hb]

theorem add_transaction_fst_reject (L : CryptoLedger) (now : DT) (txn : Json)
    (h : (add_transaction L now txn).2 = false) :
    (add_transaction L now txn).1 = L := by
  have he := add_transaction_eq L now txn
  cases hb : (!(getMandates txn).isEmpty &&
      ((getMandates txn).all (ledger_verify_mandate L now) &&
       (ledger_verify_chain (getMandates txn) && step4_check txn))) <;>
    simp only [he, hb] at h ⊢ <;> simp_all

theorem add_transaction_fst_accept (L : CryptoLedger) (now : DT) (txn : Json)
    (h : (add_transaction L now txn).2 = true) :
    (add_transaction L now txn).1 =
      { L with transactions := L.transactions ++ [txn] } := by
  have he := add_transaction_eq L now txn
  cases hb : (!(getMandates txn).isEmpty &&
      ((getMandates txn).all (ledger_verify_mandate L now) &&
       (ledger_verify_chain (getMandates txn) && step4_check txn))) <;>
    simp only [he, hb] at h ⊢ <;> simp_all

theorem accepted_iff (L : CryptoLedger) (now : DT) (txn : Json) :
    (add_transaction L now txn).2 = true ↔
      getMandates txn ≠ [] ∧
      (∀ m ∈ getMandates txn, ledger_verify_mandate L now m = true) ∧
      ledger_verify_chain (getMandates txn) = true ∧
      step4_check txn = true := by
  rw [add_transaction_snd]
  simp [List.all_eq_true, List.isEmpty_iff, and_assoc]

theorem ledger_verify_chain_iff (ms : List Json) :
    ledger_verify_chain ms = true ↔ ChainLinked ms := by
  induction ms with
  | nil => simp [ledger_verify_chain, ChainLinked]
  | cons a tl ih =>
    cases tl with
    | nil => simp [ledger_verify_chain, ChainLinked]
    | cons b tl2 =>
      simp only [ledger_verify_chain, ChainLinked, List.chain'_cons,
        Bool.and_eq_true, beq_iff_eq] at ih ⊢
      rw [ih]

theorem ledger_issuer_trusted_iff (L : CryptoLedger) (m : Json) :
    ledger_issuer_trusted L m = true ↔ TrustConditions L m := by
  unfold ledger_issuer_trusted TrustConditions
  rcases hiss : m.pyGet "issuer" with _ | b | q | s | l | fs <;>
    rcases hvm : (m.getD "proof" (Json.mkObj [])).pyGet "verificationMethod"
      with _ | b2 | q2 | s2 | l2 | fs2 <;>
    simp [hiss, hvm]
  case str.str =>
    cases hlook : lookupStr L.trusted_issuers s with
    | none => simp [hlook, Json.truthy]
    | some expected =>
      cases hres : key_resolve_verification_method L.key_manager s2 with
      | none => simp [hlook, hres, Json.truthy]
      | some r =>
        simp [hlook, hres, Json.truthy, Bool.and_eq_true, beq_iff_eq,
          and_assoc]
  all_goals
    intro h1 h2
    cases lookupStr L.trusted_issuers s <;> rfl

theorem crossCheckReport_eq (a b c : Json) :
    crossCheckReport a b c = crossCheck3 a b c := by
  unfold crossCheckReport crossCheck3
  cases a.get "credentialSubject" <;>
    cases b.get "credentialSubject" <;>
    cases c.get "credentialSubject" <;>
    simp [Option.bind] <;>
    (try cases extractIntentTerms _ <;> simp [Option.bind]) <;>
    (try cases extractCartTerms _ <;> simp [Option.bind])

theorem ledger_not_expired_iff (now : DT) (m : Json) :
    ledger_not_expired now m = true ↔ ExpirationOK now m := by
  unfold ledger_not_expired ExpirationOK
  rcases hexp : m.pyGet "expirationDate" with _ | b | q | s | l | fs <;>
    simp [hexp, Json.truthy]
  case str =>
    by_cases hs : s = ""
    · simp [hs]
    · cases hp : ledger_parse_rfc3339 s with
      | none => simp [hs, hp]
      | some d => simp [hs, hp]

theorem not_expired_of_absent (now : DT) (m : Json)
    (h : (m.pyGet "expirationDate").truthy = false) :
    ledger_not_expired now m = true := by
  unfold ledger_not_expired
  simp [h]

theorem ledger_not_revoked_false_of_mem (revoked : List String) (m : Json)
    (s : String) (hid : m.pyGet "id" = Json.str s) (hmem : s ∈ revoked) :
    ledger_not_revoked revoked m = false := by
  unfold ledger_not_revoked
  rw [hid]
  by_cases hs : s = ""
  · simp [hs, Json.truthy]
  · simp [Json.truthy, hs, List.contains, List.elem_iff, hmem]

theorem ledger_not_revoked_false_of_missing (revoked : List String) (m : Json)
    (hid : m.pyGet "id" = Json.null) :
    ledger_not_revoked revoked m = false := by
  unfold ledger_not_revoked
  simp [hid, Json.truthy]

theorem verify_mandate_conjuncts (L : CryptoLedger) (now : DT) (m : Json)
    (h : ledger_verify_mandate L now m = true) :
    ledger_issuer_trusted L m = true ∧
    ledger_not_expired now m = true ∧
    ledger_not_revoked L.revoked_ids m = true ∧
    MandateSigner.verify m L.key_manager = true := by
  simp only [ledger_verify_mandate, Bool.and_eq_true] at h
  exact ⟨h.1.1.1, h.1.1.2, h.1.2, h.2⟩

theorem verify_mandate_false_of_untrusted (L : CryptoLedger) (now : DT)
    (m : Json) (h : ledger_issuer_trusted L m = false) :
    ledger_verify_mandate L now m = false := by
  simp [ledger_verify_mandate, h]

theorem verify_mandate_false_of_expired (L : CryptoLedger) (now : DT)
    (m : Json) (h : ledger_not_expired now m = false) :
    ledger_verify_mandate L now m = false := by
  simp [ledger_verify_mandate, h]

theorem verify_mandate_false_of_revoked (L : CryptoLedger) (now : DT)
    (m : Json) (h : ledger_not_revoked L.revoked_ids m = false) :
    ledger_verify_mandate L now m = false := by
  simp [ledger_verify_mandate, h]

theorem rejected_of_mandate_false (L : CryptoLedger) (now : DT) (txn : Json)
    (m : Json) (hm : m ∈ getMandates txn)
    (hv : ledger_verify_mandate L now m = false) :
    (add_transaction L now txn).2 = false := by
  rw [add_transaction_snd]
  have hall : (getMandates txn).all (ledger_verify_mandate L now) = false := by
    cases hA : (getMandates txn).all (ledger_verify_mandate L now)
    · rfl
    · rw [List.all_eq_true] at hA
      rw [hA m hm] at hv
      exact Bool.noConfusion hv
  simp [hall]

/-- C1 counterexample: for the 4-mandate batch intent, cart, netting,
payment the code checks `mandates[:3]` — so a batch whose payment
record's `payment_details.amount` (99) differs from the intent's
`details.amount` (10) is still accepted, because the third set of values
is read from the netting record, not the payment record. -/
theorem C1_payment_record_not_checked :
    (add_transaction exLedger exNow exTxn4).2 = true ∧
    getMandates exTxn4 = [exIntent, exCart, exNetting, exPaymentOdd] ∧
    typeLast exIntent = some (.str "IntentMandate") ∧
    extractPaymentTerms (exPaymentOdd.pyGet "credentialSubject") =
      some (99, .str "EUR", .str "issuer:merchant") ∧
    extractIntentTerms (exIntent.pyGet "credentialSubject") =
      some (10, .str "EUR", .str "issuer:merchant") := by
  decide

/-- C1 (amended): for a batch whose first record is an IntentMandate and
which has at least 3 records, submit accepts exactly when every mandate
passes the per-mandate checks, the chain is linked, and the cross-record
extraction over the FIRST THREE records (at the fixed payload paths of
`crossCheck3`) succeeds with all three amounts, currencies and receivers
equal; any extraction failure or mismatch there rejects the batch. -/
theorem C1_cross_check (L : CryptoLedger) (now : DT) (txn : Json)
    (a b c : Json) (rest : List Json)
    (hms : getMandates txn = a :: b :: c :: rest)
    (hintent : typeLast a = some (.str "IntentMandate")) :
    (add_transaction L now txn).2 = true ↔
      ((∀ m ∈ getMandates txn, ledger_verify_mandate L now m = true) ∧
       ledger_verify_chain (getMandates txn) = true ∧
       crossCheck3 a b c = some true) := by
  rw [accepted_iff]
  have hshape : isCanonicalShape (getMandates txn) = true := by
    rw [hms]; simp [isCanonicalShape, hintent, Nat.le_add_left]
  have hstep : step4_check txn = (crossCheck3 a b c).getD false := by
    unfold step4_check
    rw [hms] at hshape
    simp [hms, hshape]
  rw [hstep]
  constructor
  · rintro ⟨hne, hall, hch, hcc⟩
    refine ⟨hall, hch, ?_⟩
    cases hc : crossCheck3 a b c with
    | none => rw [hc] at hcc; exact Bool.noConfusion hcc
    | some v =>
      rw [hc] at hcc
      cases v
      · exact Bool.noConfusion hcc
      · rfl
  · rintro ⟨hall, hch, hcc⟩
    exact ⟨by rw [hms]; simp, hall, hch, by rw [hcc]; rfl⟩

/-- C1 witness: the canonical balanced 3-mandate batch is accepted via
the amended characterization. -/
theorem C1_cross_check_witness :
    (add_transaction exLedger exNow exTxn3).2 = true :=
  (C1_cross_check exLedger exNow exTxn3 exIntent exCart exPayment []
      (by decide) (by decide)).mpr
    ⟨by decide, by decide, by decide⟩

/-- C2: submit accepts only if every mandate satisfies the trust
conditions (issuer a non-empty string registered in the trust root, a
resolvable verification method whose key encodes to exactly the
registered key); a mandate failing them rejects the whole batch with the
ledger unchanged, independently of its signature. -/
theorem C2_trust_gate (L : CryptoLedger) (now : DT) (txn : Json) :
    ((add_transaction L now txn).2 = true →
      ∀ m ∈ getMandates txn, TrustConditions L m) ∧
    (∀ m ∈ getMandates txn, ¬ TrustConditions L m →
      (add_transaction L now txn).2 = false ∧
      (add_transaction L now txn).1 = L) := by
  constructor
  · intro hacc m hm
    have h := ((accepted_iff L now txn).mp hacc).2.1 m hm
    exact (ledger_issuer_trusted_iff L m).mp
      (verify_mandate_conjuncts L now m h).1
  · intro m hm hntc
    have htr : ledger_issuer_trusted L m = false := by
      cases ht : ledger_issuer_trusted L m
      · rfl
      · exact absurd ((ledger_issuer_trusted_iff L m).mp ht) hntc
    have hrej := rejected_of_mandate_false L now txn m hm
      (verify_mandate_false_of_untrusted L now m htr)
    exact ⟨hrej, add_transaction_fst_reject L now txn hrej⟩

/-- C2 witness: the accepted example mandate satisfies the trust
conditions, and the same correctly-signed mandate is rejected when the
trust root registers a different key for its issuer. -/
theorem C2_trust_gate_witness :
    TrustConditions exLedger exIntent ∧
    MandateSigner.verify exIntent exLedgerWrongKey.key_manager = true ∧
    (add_transaction exLedgerWrongKey exNow exTxnIntentOnly).2 = false := by
  refine ⟨?_, by decide, ?_⟩
  · exact (C2_trust_gate exLedger exNow exTxn3).1 (by decide) exIntent
      (by decide)
  · exact ((C2_trust_gate exLedgerWrongKey exNow exTxnIntentOnly).2 exIntent
      (by decide) (fun htc => by
        have h1 := (ledger_issuer_trusted_iff exLedgerWrongKey exIntent).mpr htc
        have h0 : ledger_issuer_trusted exLedgerWrongKey exIntent = false := by
          decide
        rw [h0] at h1
        exact Bool.noConfusion h1)).1

/-- C3 (code bug): `verify(sign(m))` holds for the signed example intent,
but altering the signed field `credentialSubject.details.amount` after
signing (proof unchanged) still verifies, because the canonicalization
contexts drop the `details` term from the signed bytes. -/
theorem C3_roundtrip_tamper :
    MandateSigner.verify exIntent exKM = true ∧
    exIntentTampered.pyGet "proof" = exIntent.pyGet "proof" ∧
    exIntentTampered.pyGet "credentialSubject" ≠
      exIntent.pyGet "credentialSubject" ∧
    MandateSigner.verify exIntentTampered exKM = true := by
  decide

/-- C4: an accepted batch is linked (each record's
`credentialSubject.prev_mandate_id` equals its predecessor's `id`); a
batch broken at any position is rejected; and a nonempty batch whose
mandates all verify, whose chain is linked, and whose cross-record check
passes (vacuously for non-canonical shapes) is accepted. -/
theorem C4_chain_linkage (L : CryptoLedger) (now : DT) (txn : Json) :
    ((add_transaction L now txn).2 = true → ChainLinked (getMandates txn)) ∧
    (¬ ChainLinked (getMandates txn) →
      (add_transaction L now txn).2 = false) ∧
    (getMandates txn ≠ [] →
      (∀ m ∈ getMandates txn, ledger_verify_mandate L now m = true) →
      ChainLinked (getMandates txn) →
      step4_check txn = true →
      (add_transaction L now txn).2 = true) := by
  refine ⟨?_, ?_, ?_⟩
  · intro hacc
    exact (ledger_verify_chain_iff _).mp
      ((accepted_iff L now txn).mp hacc).2.2.1
  · intro hnc
    have hch : ledger_verify_chain (getMandates txn) = false := by
      cases hc : ledger_verify_chain (getMandates txn)
      · rfl
      · exact absurd ((ledger_verify_chain_iff _).mp hc) hnc
    rw [add_transaction_snd]
    simp [hch]
  · intro hne hall hcl hstep
    exact (accepted_iff L now txn).mpr
      ⟨hne, hall, (ledger_verify_chain_iff _).mpr hcl, hstep⟩

/-- C4 witness: a broken 2-mandate batch is rejected and the correctly
linked canonical batch is accepted. -/
theorem C4_chain_linkage_witness :
    (add_transaction exLedger exNow exTxnBroken).2 = false ∧
    (add_transaction exLedger exNow exTxn3).2 = true := by
  constructor
  · exact (C4_chain_linkage exLedger exNow exTxnBroken).2.1 (fun hc => by
      have h1 := (ledger_verify_chain_iff (getMandates exTxnBroken)).mpr hc
      have h0 : ledger_verify_chain (getMandates exTxnBroken) = false := by
        decide
      rw [h0] at h1
      exact Bool.noConfusion h1)
  · exact (C4_chain_linkage exLedger exNow exTxn3).2.2 (by decide) (by decide)
      ((ledger_verify_chain_iff (getMandates exTxn3)).mp (by decide))
      (by decide)

/-- C5 counterexample: two timestamps that are malformed under the
claimed fixed format `YYYY-MM-DDTHH:MM:SSZ` yet whose batches are
accepted — an empty-string expiration is treated as absent rather than
expired, and lowercase `t`/`z` separators parse because `strptime`
matches its format literals case-insensitively. -/
theorem C5_expiration_counterexample :
    exIntentEmptyExp.pyGet "expirationDate" = Json.str "" ∧
    ledger_parse_rfc3339 "" = none ∧
    (add_transaction exLedger exNow exTxnEmptyExp).2 = true ∧
    exIntentLowerExp.pyGet "expirationDate" =
      Json.str "2099-01-01t00:00:00z" ∧
    ledger_parse_rfc3339 "2099-01-01t00:00:00z" =
      some ⟨2099, 1, 1, 0, 0, 0⟩ ∧
    (add_transaction exLedger exNow exTxnLowerExp).2 = true := by
  decide

/-- C5 (amended): an accepted batch's mandates all satisfy the
expiration condition (a truthy expiration value is a string that
`strptime` parses — case-insensitively on the `T`/`Z` literals — to an
instant strictly after the clock); a mandate whose parsed expiration is
not strictly after the clock rejects the batch; a mandate with a
NON-EMPTY ASCII expiration string that `strptime` does not parse rejects
the batch; and a falsy expiration value (absent, `null`, or the empty
string) passes the check as non-expiring. -/
theorem C5_expiration (L : CryptoLedger) (now : DT) (txn : Json) :
    ((add_transaction L now txn).2 = true →
      ∀ m ∈ getMandates txn, ExpirationOK now m) ∧
    (∀ m ∈ getMandates txn, ∀ s d,
      m.pyGet "expirationDate" = Json.str s →
      ledger_parse_rfc3339 s = some d → DT.lt now d = false →
      (add_transaction L now txn).2 = false) ∧
    (∀ m ∈ getMandates txn, ∀ s,
      m.pyGet "expirationDate" = Json.str s → s ≠ "" →
      (∀ c ∈ s.toList, c.toNat < 128) →
      ledger_parse_rfc3339 s = none →
      (add_transaction L now txn).2 = false) ∧
    (∀ m, (m.pyGet "expirationDate").truthy = false →
      ledger_not_expired now m = true) := by
  refine ⟨?_, ?_, ?_, ?_⟩
  · intro hacc m hm
    exact (ledger_not_expired_iff now m).mp
      (verify_mandate_conjuncts L now m
        (((accepted_iff L now txn).mp hacc).2.1 m hm)).2.1
  · intro m hm s d hst hp hlt
    have hne : ledger_not_expired now m = false := by
      unfold ledger_not_expired
      rw [hst]
      by_cases hs : s = ""
      · exfalso
        rw [hs] at hp
        have h0 : ledger_parse_rfc3339 "" = none := by decide
        rw [h0] at hp
        exact Option.noConfusion hp
      · simp [Json.truthy, hs, hp, hlt]
    exact rejected_of_mandate_false L now txn m hm
      (verify_mandate_false_of_expired L now m hne)
  · intro m hm s hst hs _ hp
    have hne : ledger_not_expired now m = false := by
      unfold ledger_not_expired
      rw [hst]
      simp [Json.truthy, hs, hp]
    exact rejected_of_mandate_false L now txn m hm
      (verify_mandate_false_of_expired L now m hne)
  · exact fun m h => not_expired_of_absent now m h

/-- C5 witness: the accepted intent satisfies the expiration condition
at `exNow`; the same batch is rejected when the clock reaches the
expiration instant exactly; and a mandate whose expiration is the
unparseable ASCII string `"not-a-date"` is rejected. -/
theorem C5_expiration_witness :
    ExpirationOK exNow exIntent ∧
    (add_transaction exLedger exNowAtExpiry exTxnIntentOnly).2 = false ∧
    (add_transaction exLedger exNow exTxnBadExp).2 = false := by
  refine ⟨?_, ?_, ?_⟩
  · exact (C5_expiration exLedger exNow exTxn3).1 (by decide) exIntent
      (by decide)
  · exact (C5_expiration exLedger exNowAtExpiry exTxnIntentOnly).2.1 exIntent
      (by decide) exExpiry ⟨2026, 1, 1, 1, 0, 0⟩ (by decide) (by decide)
      (by decide)
  · exact (C5_expiration exLedger exNow exTxnBadExp).2.2.1 exIntentBadExp
      (by decide) "not-a-date" (by decide) (by decide) (by decide)
      (by decide)

/-- C6: after `revoke(id)`, any batch containing a mandate whose id is
that string is rejected with the state unchanged, whatever its other
checks would say; and a mandate with a missing id is treated as revoked
and rejects its batch. -/
theorem C6_revocation (L : CryptoLedger) (now : DT) (txn : Json) (m : Json) :
    (∀ s, m ∈ getMandates txn → m.pyGet "id" = Json.str s →
      (add_transaction (revoke L s) now txn).2 = false ∧
      (add_transaction (revoke L s) now txn).1 = revoke L s) ∧
    (m ∈ getMandates txn → m.pyGet "id" = Json.null →
      (add_transaction L now txn).2 = false) := by
  constructor
  · intro s hm hid
    have hnr : ledger_not_revoked (revoke L s).revoked_ids m = false :=
      ledger_not_revoked_false_of_mem _ m s hid (by simp [revoke])
    have hrej := rejected_of_mandate_false (revoke L s) now txn m hm
      (verify_mandate_false_of_revoked _ now m hnr)
    exact ⟨hrej, add_transaction_fst_reject _ now txn hrej⟩
  · intro hm hid
    exact rejected_of_mandate_false L now txn m hm
      (verify_mandate_false_of_revoked L now m
        (ledger_not_revoked_false_of_missing _ m hid))

/-- C6 witness: revoking the intent's id rejects the previously accepted
batch, and a batch containing an id-less record is rejected. -/
theorem C6_revocation_witness :
    (add_transaction (revoke exLedger "urn:uuid:i1") exNow exTxn3).2 =
      false ∧
    (add_transaction exLedger exNow exTxnNoId).2 = false := by
  constructor
  · exact ((C6_revocation exLedger exNow exTxn3 exIntent).1 "urn:uuid:i1"
      (by decide) (by decide)).1
  · exact (C6_revocation exLedger exNow exTxnNoId
      (Json.mkObj [("issuer", .str "issuer:user-wallet")])).2
      (by decide) (by decide)

/-- C7 (code bug): the canonicalization excludes the proof field, but it
is not injective on signed fields — two records differing only in the
signed field `credentialSubject.details.amount` canonicalize to identical
bytes, because the fixed contexts drop the `details` term. -/
theorem C7_canonicalization :
    json_canonicalize_vc_for_signing exIntent =
      json_canonicalize_vc_for_signing (exIntent.erase "proof") ∧
    exIntentTampered.erase "proof" ≠ exIntent.erase "proof" ∧
    json_canonicalize_vc_for_signing exIntentTampered =
      json_canonicalize_vc_for_signing exIntent := by
  decide

/-- C8: an empty batch is rejected; a rejected batch leaves the whole
ledger state unchanged; an accepted batch appends exactly itself to the
transaction sequence while the trust root and revoked-id set stay
unchanged. -/
theorem C8_commit_semantics (L : CryptoLedger) (now : DT) (txn : Json) :
    (getMandates txn = [] → (add_transaction L now txn).2 = false) ∧
    ((add_transaction L now txn).2 = false →
      (add_transaction L now txn).1 = L) ∧
    ((add_transaction L now txn).2 = true →
      (add_transaction L now txn).1.transactions =
        L.transactions ++ [txn] ∧
      (add_transaction L now txn).1.trusted_issuers = L.trusted_issuers ∧
      (add_transaction L now txn).1.revoked_ids = L.revoked_ids) := by
  refine ⟨?_, ?_, ?_⟩
  · intro h
    rw [add_transaction_snd]
    simp [h]
  · exact add_transaction_fst_reject L now txn
  · intro h
    rw [add_transaction_fst_accept L now txn h]
    exact ⟨rfl, rfl, rfl⟩

/-- C8 witness: the empty example batch is rejected, and accepting the
canonical batch appends exactly it. -/
theorem C8_commit_semantics_witness :
    (add_transaction exLedger exNow exTxnEmpty).2 = false ∧
    (add_transaction exLedger exNow exTxn3).1.transactions =
      exLedger.transactions ++ [exTxn3] := by
  constructor
  · exact (C8_commit_semantics exLedger exNow exTxnEmpty).1 (by decide)
  · exact ((C8_commit_semantics exLedger exNow exTxn3).2.2 (by decide)).1

/-- C9: the read-only re-check equals the step-4 boolean on every
record, is true for every accepted batch, and is true for every batch
not of the canonical payment shape. -/
theorem C9_consistency_recheck (txn : Json) :
    (ledger_check_consistency txn = step4_check txn) ∧
    (∀ (L : CryptoLedger) (now : DT),
      (add_transaction L now txn).2 = true →
      ledger_check_consistency txn = true) ∧
    (isCanonicalShape (getMandates txn) = false →
      ledger_check_consistency txn = true) := by
  have heq : ledger_check_consistency txn = step4_check txn := by
    unfold ledger_check_consistency step4_check
    cases hshape : isCanonicalShape (getMandates txn)
    · simp [hshape]
    · rcases hms : getMandates txn with _ | ⟨a, _ | ⟨b, _ | ⟨c, r⟩⟩⟩ <;>
        rw [hms] at hshape <;>
        simp [hms, hshape, crossCheckReport_eq]
  refine ⟨heq, ?_, ?_⟩
  · intro L now hacc
    rw [heq]
    exact ((accepted_iff L now txn).mp hacc).2.2.2
  · intro h
    unfold ledger_check_consistency
    simp [h]

/-- C9 witness: the accepted canonical batch re-checks true, and a lone
intent (non-canonical shape) re-checks true. -/
theorem C9_consistency_recheck_witness :
    ledger_check_consistency exTxn3 = true ∧
    ledger_check_consistency exTxnIntentOnly = true := by
  constructor
  · exact (C9_consistency_recheck exTxn3).2.1 exLedger exNow (by decide)
  · exact (C9_consistency_recheck exTxnIntentOnly).2.2 (by decide)

/-- C10: submit never enforces the 1/3/4 batch shape — for any nonempty
batch not of the canonical payment shape (fewer than 3 records or first
record not an IntentMandate), acceptance is exactly per-mandate checks
plus chain linkage, with no cross-record comparison at all. -/
theorem C10_no_shape_enforcement (L : CryptoLedger) (now : DT) (txn : Json)
    (hne : getMandates txn ≠ [])
    (hshape : isCanonicalShape (getMandates txn) = false) :
    (add_transaction L now txn).2 = true ↔
      ((∀ m ∈ getMandates txn, ledger_verify_mandate L now m = true) ∧
       ledger_verify_chain (getMandates txn) = true) := by
  rw [accepted_iff]
  have hstep : step4_check txn = true := by
    unfold step4_check
    simp [hshape]
  simp [hne, hstep]

/-- C10 witness: a 2-mandate intent-then-cart batch whose amounts
disagree (10 vs 77) is accepted with no amount comparison. -/
theorem C10_no_shape_enforcement_witness :
    (add_transaction exLedger exNow exTxn2).2 = true ∧
    extractIntentTerms (exIntent.pyGet "credentialSubject") =
      some (10, Json.str "EUR", Json.str "issuer:merchant") ∧
    extractCartTerms (exCartOdd.pyGet "credentialSubject") =
      some (77, Json.str "EUR", Json.str "issuer:merchant") := by
  refine ⟨?_, by decide, by decide⟩
  exact (C10_no_shape_enforcement exLedger exNow exTxn2 (by decide)
    (by decide)).mpr ⟨by decide, by decide⟩

end AP2
